import Mathlib

/-!
# Verification of the MCP-Maps-3D chat / map front end

Shallow embedding of the two source files of the repository:

* `index.tsx` — wires the MCP client/server pair, and installs
  `mapApp.sendMessageHandler`, the streaming send operation of the chat.
* `map_app.ts` (the unnamed source file) — the `MapApp` component: chat
  state enum, transcript, map element handling
  (`_clearMapElements`, `_handleViewLocation`, `_handleDirections`,
  `handleMapQuery`, `addMessage`, `sendMessageAction`).

Modelling conventions:

* JavaScript truthiness of an optional string (`undefined` and `""` are
  falsy) is `truthy`.
* The DOM is a heap `dom : List TurnContent`; an element reference is its
  allocation index.  `MapApp.messages` is the list of indices of the turn
  `div`s, in insertion order, exactly as the JS array holds references.
* `await`-able externals are explicit inputs: the model stream is a list
  of `StreamPart`s optionally followed by a raised fault, markdown rendering
  (`marked.parse`) is a fallible function `String → Except String String`,
  and the geocoder / directions service results are passed as arguments.
* Latitudes/longitudes are opaque tokens (`Int`): no claim computes with
  them.  A camera tilt of 67.5° is stored in tenths of a degree.
-/

/-- `ChatState` enum from `map_app.ts`. -/
inductive ChatState where
  | IDLE
  | GENERATING
  | THINKING
  | EXECUTING
deriving DecidableEq, Repr

/-- One streamed response part (a fragment), as read by the loop in
`index.tsx`: an optional function call, an optional thought string and an
optional text string. -/
structure StreamPart where
  functionCall : Option String := none
  thought : Option String := none
  text : Option String := none
deriving DecidableEq, Repr

/-- JavaScript truthiness of an optional string: `undefined` and the empty
string are falsy. -/
def truthy : Option String → Bool
  | none => false
  | some s => !(s == "")

/-- Model of the JavaScript `String.prototype.trim()`: drop leading and
trailing whitespace (kernel-reducible, unlike the library trim). -/
def jsTrim (s : String) : String :=
  ⟨((s.data.dropWhile Char.isWhitespace).reverse.dropWhile Char.isWhitespace).reverse⟩

/-- The fragment reaches the thought branch of the streaming loop
(`if (part.thought)`). -/
def producesThought (p : StreamPart) : Bool := truthy p.thought

/-- The fragment reaches the display-text branch of the streaming loop
(`else if (part.text)`: a part whose thought is truthy never reaches it). -/
def producesText (p : StreamPart) : Bool := !truthy p.thought && truthy p.text

/-- Model of one chat-turn `div` as created by `MapApp.addMessage`:
its role class, whether the `details.thinking` container carries the
`hidden` class, and the `innerHTML` of the thinking and text elements. -/
structure TurnContent where
  role : String
  thinkingHidden : Bool
  thinkingHTML : String
  textHTML : String
deriving DecidableEq, Repr

/-- An opaque geographic point (`lat`/`lng` of a geocoder result). -/
structure GeoLoc where
  lat : Int
  lng : Int
deriving DecidableEq, Repr

/-- Model of a `Marker3DElement` attached to the map. -/
structure Marker3D where
  lat : Int
  lng : Int
  label : String
deriving DecidableEq, Repr

/-- Model of a `Polyline3DElement` attached to the map. -/
structure Polyline3D where
  path : List GeoLoc
  strokeColor : String
  strokeWidth : Nat
deriving DecidableEq, Repr

/-- Model of the camera target of `flyCameraTo` (tilt in tenths of a
degree, so 67.5° is 675). -/
structure Camera where
  lat : Int
  lng : Int
  tiltTenths : Nat
  range : Nat
deriving DecidableEq, Repr

/-- One route of a directions response: its overview path, the first
leg's start and end locations, and the bounds center. -/
structure RouteData where
  overviewPath : List GeoLoc
  legStart : GeoLoc
  legEnd : GeoLoc
  boundsCenter : GeoLoc
deriving DecidableEq, Repr

/-- The mutable state of the `MapApp` component (`map_app.ts`):
chat state, input box, transcript (`messages` holds DOM indices into the
heap `dom`), map initialisation flags and the four map elements. -/
structure AppState where
  chatState : ChatState := ChatState.IDLE
  inputMessage : String := ""
  messages : List Nat := []
  dom : List TurnContent := []
  mapInitialized : Bool := false
  geocoderPresent : Bool := false
  directionsServicePresent : Bool := false
  mapPresent : Bool := false
  camera : Option Camera := none
  marker : Option Marker3D := none
  routePolyline : Option Polyline3D := none
  originMarker : Option Marker3D := none
  destinationMarker : Option Marker3D := none
deriving DecidableEq, Repr

/-- In-place update of the element at an index of the DOM heap
(mutating `innerHTML` / `classList` of an already-allocated element). -/
def modifyAt {α : Type} (f : α → α) : Nat → List α → List α
  | _, [] => []
  | 0, a :: as => f a :: as
  | n + 1, a :: as => a :: modifyAt f n as

/-- `MapApp.setChatState`. -/
def setChatState (s : AppState) (c : ChatState) : AppState :=
  { s with chatState := c }

/-- `MapApp.addMessage(role, message)`: creates the turn `div` with a
hidden thinking container and a text element holding `message`, appends
it to `this.messages`, and returns (the state and) the element reference.
The role class is `role.trim()`. -/
def addMessage (s : AppState) (role message : String) : AppState × Nat :=
  ({ s with
      dom := s.dom ++
        [{ role := jsTrim role, thinkingHidden := true,
           thinkingHTML := "", textHTML := message }],
      messages := s.messages ++ [s.dom.length] },
    s.dom.length)

/-- `MapApp._clearMapElements`: removes the location marker, route
polyline, origin marker and destination marker and resets the fields. -/
def clearMapElements (s : AppState) : AppState :=
  { s with marker := none, routePolyline := none,
           originMarker := none, destinationMarker := none }

/-- `MapApp._handleViewLocation(locationQuery)`: returns untouched unless
the map is initialised and a geocoder exists; otherwise clears the map
elements, then — in the geocoder callback, whose `results`/`status` are
inputs here — on `status === 'OK'` with a first result and a present map,
flies the camera and adds a labelled marker. -/
def handleViewLocation (s : AppState) (locationQuery : String)
    (status : String) (results : List GeoLoc) : AppState :=
  if !s.mapInitialized || !s.geocoderPresent then s
  else
    let s1 := clearMapElements s
    match results with
    | r :: _ =>
      if status == "OK" && s1.mapPresent then
        { s1 with
            camera := some { lat := r.lat, lng := r.lng,
                             tiltTenths := 675, range := 2000 },
            marker := some { lat := r.lat, lng := r.lng,
                             label := locationQuery.take 30 } }
      else s1
    | [] => s1

/-- `MapApp._handleDirections(origin, dest)`: returns untouched unless the
map is initialised and a directions service exists; otherwise clears the
map elements, then — in the route callback, whose `routes`/`status` are
inputs here — on `status === 'OK'` with a first route, adds the route
polyline, the two endpoint markers labelled "A" and "B", and flies the
camera to the bounds center. -/
def handleDirections (s : AppState) (origin dest : String)
    (status : String) (routes : List RouteData) : AppState :=
  if !s.mapInitialized || !s.directionsServicePresent then s
  else
    let s1 := clearMapElements s
    match routes with
    | route :: _ =>
      if status == "OK" then
        { s1 with
            routePolyline := some { path := route.overviewPath,
                                    strokeColor := "#4285F4",
                                    strokeWidth := 8 },
            originMarker := some { lat := route.legStart.lat,
                                   lng := route.legStart.lng, label := "A" },
            destinationMarker := some { lat := route.legEnd.lat,
                                        lng := route.legEnd.lng, label := "B" },
            camera := some { lat := route.boundsCenter.lat,
                             lng := route.boundsCenter.lng,
                             tiltTenths := 450, range := 10000 } }
      else s1
    | [] => s1

/-- The `MapParams` shape forwarded by the map-query notification
callback: `{location?: string; origin?: string; destination?: string}`. -/
structure MapParams where
  location : Option String := none
  origin : Option String := none
  destination : Option String := none
deriving DecidableEq, Repr

/-- The map action `MapApp.handleMapQuery` decides to perform. -/
inductive MapAction where
  | viewLocation (q : String)
  | directions (origin dest : String)
deriving DecidableEq, Repr

/-- The branch structure of `MapApp.handleMapQuery`:
`if (params.location) ... else if (params.origin && params.destination)`,
with JavaScript truthiness. -/
def mapQueryAction (params : MapParams) : Option MapAction :=
  if truthy params.location then
    some (MapAction.viewLocation (params.location.getD ""))
  else if truthy params.origin && truthy params.destination then
    some (MapAction.directions (params.origin.getD "") (params.destination.getD ""))
  else none

/-- `MapApp.handleMapQuery(params)`: performs the selected action; the
external geocoder and directions-service outcomes are passed as inputs. -/
def handleMapQuery (s : AppState) (params : MapParams)
    (gstatus : String) (gresults : List GeoLoc)
    (dstatus : String) (droutes : List RouteData) : AppState :=
  match mapQueryAction params with
  | some (MapAction.viewLocation q) => handleViewLocation s q gstatus gresults
  | some (MapAction.directions o d) => handleDirections s o d dstatus droutes
  | none => s

/-- The local state of the streaming loop of `sendMessageHandler`:
the component state plus the two accumulator variables. -/
structure LoopState where
  app : AppState
  newCode : String
  thoughtAcc : String
deriving DecidableEq, Repr

/-- One iteration of the inner `for` loop of `sendMessageHandler` on one
part: a truthy thought sets state THINKING, grows the thought
accumulator by `' ' + part.thought`, renders it into the thinking
element and unhides the thinking container; otherwise a truthy text sets
state EXECUTING, grows `newCode` and renders it into the text element; a
function call only logs.  `Except.error` is a fault of `marked.parse`,
carrying the mutations already applied. -/
def processPart (render : String → Except String String) (aid : Nat)
    (ls : LoopState) (p : StreamPart) : Except (String × LoopState) LoopState :=
  if truthy p.thought then
    match render (ls.thoughtAcc ++ " " ++ p.thought.getD "") with
    | Except.error e =>
      Except.error (e,
        { app := setChatState ls.app ChatState.THINKING,
          newCode := ls.newCode,
          thoughtAcc := ls.thoughtAcc ++ " " ++ p.thought.getD "" })
    | Except.ok h =>
      Except.ok
        { app := { setChatState ls.app ChatState.THINKING with
            dom := modifyAt
              (fun t => { t with thinkingHTML := h, thinkingHidden := false })
              aid ls.app.dom },
          newCode := ls.newCode,
          thoughtAcc := ls.thoughtAcc ++ " " ++ p.thought.getD "" }
  else if truthy p.text then
    match render (ls.newCode ++ p.text.getD "") with
    | Except.error e =>
      Except.error (e,
        { app := setChatState ls.app ChatState.EXECUTING,
          newCode := ls.newCode ++ p.text.getD "",
          thoughtAcc := ls.thoughtAcc })
    | Except.ok h =>
      Except.ok
        { app := { setChatState ls.app ChatState.EXECUTING with
            dom := modifyAt (fun t => { t with textHTML := h }) aid ls.app.dom },
          newCode := ls.newCode ++ p.text.getD "",
          thoughtAcc := ls.thoughtAcc }
  else Except.ok ls

/-- The whole `for await` consumption of one send: the parts actually
delivered by the stream, then — when `fault` is set — the fault the
stream (or `sendMessageStream` itself) raises after them. -/
def runStream (render : String → Except String String) (aid : Nat)
    (fault : Option String) :
    List StreamPart → LoopState → Except (String × LoopState) LoopState
  | [], ls =>
    match fault with
    | none => Except.ok ls
    | some e => Except.error (e, ls)
  | p :: ps, ls =>
    match processPart render aid ls p with
    | Except.error x => Except.error x
    | Except.ok ls1 => runStream render aid fault ps ls1

/-- The state a run of the loop reached, fault or no fault. -/
def stateOf : Except (String × LoopState) LoopState → LoopState
  | Except.ok ls => ls
  | Except.error (_, ls) => ls

/-- Reading an element of the DOM heap through its reference (the element
always exists; the default is never reached). -/
def domAt (l : List TurnContent) (i : Nat) : TurnContent :=
  match l, i with
  | [], _ => { role := "", thinkingHidden := true, thinkingHTML := "", textHTML := "" }
  | t :: _, 0 => t
  | _ :: ts, n + 1 => domAt ts n

/-- The two post-stream cleanup steps of `sendMessageHandler`: hide the
thinking container when no thought was accumulated, and clear the text
element when its content trims to the placeholder `'...'` or to the
empty string. -/
def streamCleanup (aid : Nat) (thoughtAcc : String) (app : AppState) : AppState :=
  let app1 :=
    if thoughtAcc == "" then
      { app with
        dom := modifyAt (fun t => { t with thinkingHidden := true }) aid app.dom }
    else app
  let cur := (domAt app1.dom aid).textHTML
  if jsTrim cur == "..." || jsTrim cur == "" then
    { app1 with
      dom := modifyAt (fun t => { t with textHTML := "" }) aid app1.dom }
  else app1

/-- The continuation of `sendMessageHandler` after the stream is consumed
or a fault is raised: the inner `catch` (append an error turn, render
`"Error: " + message` into it — a fault of that rendering escapes and
skips the cleanup) and the two cleanup steps. -/
def handleStreamResult (render : String → Except String String) (aid : Nat) :
    Except (String × LoopState) LoopState → AppState × Option String
  | Except.ok ls => (streamCleanup aid ls.thoughtAcc ls.app, none)
  | Except.error (e, ls) =>
    let added2 := addMessage ls.app "error" ""
    match render ("Error: " ++ e) with
    | Except.error e2 => (added2.1, some e2)
    | Except.ok h =>
      let s5 := { added2.1 with
        dom := modifyAt (fun t => { t with textHTML := h })
                 added2.2 added2.1.dom }
      (streamCleanup aid ls.thoughtAcc s5, none)

/-- The opening of `sendMessageHandler`: append the assistant turn, set
state GENERATING, put the `'...'` placeholder into its text element.
Returns the state and the element reference. -/
def startAssistantTurn (s : AppState) : AppState × Nat :=
  let added := addMessage s "assistant" ""
  let s2 := setChatState added.1 ChatState.GENERATING
  ({ s2 with
      dom := modifyAt (fun t => { t with textHTML := "..." }) added.2 s2.dom },
   added.2)

/-- `mapApp.sendMessageHandler` as installed by `index.tsx`: append the
assistant turn, set state GENERATING, put the `'...'` placeholder, consume
the stream; a fault caught by the inner `catch` appends an error turn and
renders `"Error: " + message` into it (a fault of that very rendering
escapes the `catch` and skips the cleanup); then the cleanup steps; the
`finally` restores IDLE on every path.  The second component is the
exception, if any, that propagates out of the handler. -/
def sendMessageHandler (render : String → Except String String)
    (parts : List StreamPart) (fault : Option String)
    (s : AppState) (input : String) : AppState × Option String :=
  let st := startAssistantTurn s
  let r := handleStreamResult render st.2
    (runStream render st.2 fault parts
      { app := st.1, newCode := "", thoughtAcc := "" })
  ({ r.1 with chatState := ChatState.IDLE }, r.2)

/-- The opening of `sendMessageAction` past the admission check: clear
the input box, append the user turn with the `'...'` placeholder, and
render the message (`h` is the rendered markdown) into its text
element. -/
def startUserTurn (s : AppState) (h : String) : AppState :=
  let s1 := { s with inputMessage := "" }
  let added := addMessage s1 "user" "..."
  { added.1 with
    dom := modifyAt (fun t => { t with textHTML := h }) added.2 added.1.dom }

/-- `MapApp.sendMessageAction`: admission control (`return` unless the
state is IDLE and the trimmed input is nonempty), clear the input, append
the user turn with the `'...'` placeholder, render the message into it,
run the installed `sendMessageHandler`, then pick the next example
prompt (`nextPrompt`, the random choice made explicit).  The `Bool` tells
whether the handler was invoked; the `Option String` is a propagated
exception. -/
def sendMessageAction (render : String → Except String String)
    (parts : List StreamPart) (fault : Option String) (nextPrompt : String)
    (s : AppState) : AppState × Bool × Option String :=
  if s.chatState != ChatState.IDLE || jsTrim s.inputMessage == "" then
    (s, false, none)
  else
    let msg := jsTrim s.inputMessage
    match render msg with
    | Except.error e =>
      ((addMessage { s with inputMessage := "" } "user" "...").1, false, some e)
    | Except.ok h =>
      let hr := sendMessageHandler render parts fault (startUserTurn s h) msg
      match hr.2 with
      | some e => (hr.1, true, some e)
      | none => ({ hr.1 with inputMessage := nextPrompt }, true, none)

/-- `ToolCallRequest`: call id, tool name, arguments. -/
structure ToolCallRequest where
  callId : Nat
  name : String
  args : List (String × String)
deriving DecidableEq, Repr

/-- `ToolCallResult`: echoed call id, success flag, payload or error
message. -/
structure ToolCallResult where
  callId : Nat
  success : Bool
  message : String
deriving DecidableEq, Repr

/-- A registered tool: name and required parameter names. -/
structure ToolDef where
  name : String
  requiredParams : List String
deriving DecidableEq, Repr

/-- Modelled from the spec: the MCP maps server source
(`mcp_maps_server.ts`, exporting `startMcpGoogleMapServer` and
`MapParams`) is not under `src/`; the registry is taken from spec §4.1
and §6: `view_location_google_maps(query)` and
`directions_on_google_maps(origin, destination)`. -/
def registeredTools : List ToolDef :=
  [{ name := "view_location_google_maps", requiredParams := ["query"] },
   { name := "directions_on_google_maps",
     requiredParams := ["origin", "destination"] }]

/-- Argument lookup by parameter name. -/
def lookupArg (args : List (String × String)) (k : String) : Option String :=
  (args.find? (fun a => a.1 == k)).map (fun a => a.2)

/-- Modelled from the spec: the tool dispatcher's
`handle(request) -> ToolCallResult` of spec §4.2 — unknown name gives
success=false "unknown tool"; a missing required argument gives
success=false naming the field; a valid request fires exactly one
map-query notification (the `MapParams` list; `index.tsx` wires the
notification callback to `mapApp.handleMapQuery`) and succeeds. -/
def handle (req : ToolCallRequest) : ToolCallResult × List MapParams :=
  match registeredTools.find? (fun t => t.name == req.name) with
  | none => ({ callId := req.callId, success := false,
               message := "unknown tool" }, [])
  | some td =>
    match td.requiredParams.find? (fun k => (lookupArg req.args k).isNone) with
    | some missing =>
      ({ callId := req.callId, success := false,
         message := "missing required argument: " ++ missing }, [])
    | none =>
      let p : MapParams :=
        if req.name == "view_location_google_maps" then
          { location := lookupArg req.args "query" }
        else
          { origin := lookupArg req.args "origin",
            destination := lookupArg req.args "destination" }
      ({ callId := req.callId, success := true, message := "ok" }, [p])

/-- A markdown renderer that never faults (used to instantiate the
`render` parameter on concrete runs). -/
def okRender : String → Except String String := fun t => Except.ok t

/-- The elements displayed on the map belong to at most one resolved
intent: a location marker excludes the route elements, and the route
polyline and its two endpoint markers are present or absent together. -/
def intentInv (s : AppState) : Prop :=
  (s.marker = none ∨
    (s.routePolyline = none ∧ s.originMarker = none ∧ s.destinationMarker = none)) ∧
  (s.routePolyline = none ↔ s.originMarker = none) ∧
  (s.routePolyline = none ↔ s.destinationMarker = none)

instance (s : AppState) : Decidable (intentInv s) := by
  unfold intentInv
  infer_instance

/-! ## Helper lemmas -/

theorem modifyAt_append {α : Type} (f : α → α) (base : List α) (a : α)
    (rest : List α) :
    modifyAt f base.length (base ++ a :: rest) = base ++ f a :: rest := by
  induction base with
  | nil => rfl
  | cons b bs ih => simp [modifyAt, ih]

theorem domAt_append_mid (base : List TurnContent) (a : TurnContent)
    (rest : List TurnContent) :
    domAt (base ++ a :: rest) base.length = a := by
  induction base with
  | nil => rfl
  | cons b bs ih => simpa [domAt] using ih

theorem append_space_ne (x y : String) : x ++ " " ++ y ≠ "" := by
  intro h
  have h1 := congrArg String.length h
  simp only [String.length_append] at h1
  have h2 : (" ").length = 1 := rfl
  have h3 : ("").length = 0 := rfl
  omega

theorem stateOf_ok (ls : LoopState) : stateOf (Except.ok ls) = ls := rfl

theorem stateOf_error (x : String × LoopState) :
    stateOf (Except.error x) = x.2 := by
  cases x
  rfl

theorem setChatState_dom (s : AppState) (c : ChatState) :
    (setChatState s c).dom = s.dom := rfl

theorem setChatState_messages (s : AppState) (c : ChatState) :
    (setChatState s c).messages = s.messages := rfl

theorem processPart_messages (render : String → Except String String)
    (aid : Nat) (ls : LoopState) (p : StreamPart) :
    (stateOf (processPart render aid ls p)).app.messages = ls.app.messages := by
  unfold processPart
  by_cases h1 : truthy p.thought
  · simp only [h1, if_true]
    cases hr : render (ls.thoughtAcc ++ " " ++ p.thought.getD "") <;>
      simp [stateOf, setChatState]
  · simp only [h1, if_false, Bool.false_eq_true]
    by_cases h2 : truthy p.text
    · simp only [h2, if_true]
      cases hr : render (ls.newCode ++ p.text.getD "") <;>
        simp [stateOf, setChatState]
    · simp [h2, stateOf]

theorem runStream_messages (render : String → Except String String) (aid : Nat)
    (fault : Option String) (parts : List StreamPart) :
    ∀ ls : LoopState,
      (stateOf (runStream render aid fault parts ls)).app.messages =
        ls.app.messages := by
  induction parts with
  | nil =>
    intro ls
    cases fault <;> simp [runStream, stateOf]
  | cons p ps ih =>
    intro ls
    have hp := processPart_messages render aid ls p
    cases hpp : processPart render aid ls p with
    | error x =>
      rw [hpp, stateOf_error] at hp
      simp only [runStream, hpp]
      rw [stateOf_error]
      exact hp
    | ok ls1 =>
      rw [hpp, stateOf_ok] at hp
      simp only [runStream, hpp]
      rw [ih ls1]
      exact hp

theorem streamCleanup_messages (aid : Nat) (acc : String) (app : AppState) :
    (streamCleanup aid acc app).messages = app.messages := by
  unfold streamCleanup
  by_cases h1 : acc == ""
  · simp only [h1, if_true]
    split <;> rfl
  · simp only [h1, if_false, Bool.false_eq_true]
    split <;> rfl

theorem handleStreamResult_messages (render : String → Except String String)
    (aid : Nat) (res : Except (String × LoopState) LoopState) :
    ∃ l : List Nat,
      (handleStreamResult render aid res).1.messages =
        (stateOf res).app.messages ++ l := by
  cases res with
  | ok ls =>
    exact ⟨[], by simp [handleStreamResult, stateOf, streamCleanup_messages]⟩
  | error x =>
    rcases x with ⟨e, ls⟩
    cases hr : render ("Error: " ++ e) with
    | error e2 =>
      exact ⟨[ls.app.dom.length],
        by simp [handleStreamResult, stateOf, hr, addMessage]⟩
    | ok h =>
      exact ⟨[ls.app.dom.length],
        by simp [handleStreamResult, stateOf, hr, addMessage,
                 streamCleanup_messages]⟩

theorem sendMessageHandler_messages (render : String → Except String String)
    (parts : List StreamPart) (fault : Option String) (s : AppState)
    (input : String) :
    ∃ l : List Nat,
      (sendMessageHandler render parts fault s input).1.messages =
        s.messages ++ l := by
  unfold sendMessageHandler
  obtain ⟨l, hl⟩ := handleStreamResult_messages render s.dom.length
    (runStream render s.dom.length fault parts
      { app := { setChatState (addMessage s "assistant" "").1 ChatState.GENERATING with
                   dom := modifyAt (fun t => { t with textHTML := "..." })
                     s.dom.length
                     (setChatState (addMessage s "assistant" "").1 ChatState.GENERATING).dom },
        newCode := "", thoughtAcc := "" })
  rw [runStream_messages] at hl
  refine ⟨s.dom.length :: l, ?_⟩
  simpa [addMessage, setChatState] using hl

theorem startAssistantTurn_fst_dom (s : AppState) :
    (startAssistantTurn s).1.dom =
      s.dom ++ [{ role := "assistant", thinkingHidden := true,
                  thinkingHTML := "", textHTML := "..." }] := by
  have hja : jsTrim "assistant" = "assistant" := rfl
  simp [startAssistantTurn, addMessage, setChatState, modifyAt_append, hja]

theorem startAssistantTurn_snd (s : AppState) :
    (startAssistantTurn s).2 = s.dom.length := rfl

theorem processPart_thought (render : String → Except String String)
    (aid : Nat) (ls : LoopState) (p : StreamPart) (u : String)
    (hth : truthy p.thought = true)
    (hu : render (ls.thoughtAcc ++ " " ++ p.thought.getD "") = Except.ok u) :
    processPart render aid ls p =
      Except.ok
        { app := { setChatState ls.app ChatState.THINKING with
            dom := modifyAt
              (fun t => { t with thinkingHTML := u, thinkingHidden := false })
              aid ls.app.dom },
          newCode := ls.newCode,
          thoughtAcc := ls.thoughtAcc ++ " " ++ p.thought.getD "" } := by
  simp [processPart, hth, hu]

theorem processPart_text (render : String → Except String String)
    (aid : Nat) (ls : LoopState) (p : StreamPart) (u : String)
    (hth : truthy p.thought = false) (htx : truthy p.text = true)
    (hu : render (ls.newCode ++ p.text.getD "") = Except.ok u) :
    processPart render aid ls p =
      Except.ok
        { app := { setChatState ls.app ChatState.EXECUTING with
            dom := modifyAt (fun t => { t with textHTML := u }) aid ls.app.dom },
          newCode := ls.newCode ++ p.text.getD "",
          thoughtAcc := ls.thoughtAcc } := by
  simp [processPart, hth, htx, hu]

theorem processPart_skip (render : String → Except String String)
    (aid : Nat) (ls : LoopState) (p : StreamPart)
    (hth : truthy p.thought = false) (htx : truthy p.text = false) :
    processPart render aid ls p = Except.ok ls := by
  simp [processPart, hth, htx]

/-- Master induction on the streaming loop, for a rendering function that
never faults: the loop reaches the end of the delivered parts (raising the
stream fault there if one is set); the assistant turn keeps its role; the
thought accumulator and the thinking-container visibility track whether
some delivered fragment reached the thought branch; the text element is
untouched when no fragment reached the text branch. -/
theorem runStream_spec (render : String → Except String String)
    (hr : ∀ t : String, ∃ u, render t = Except.ok u)
    (fault : Option String) (base rest : List TurnContent) :
    ∀ (parts : List StreamPart) (ls : LoopState) (a : TurnContent),
      ls.app.dom = base ++ a :: rest →
      ∃ ls1 a1,
        runStream render base.length fault parts ls =
          (match fault with
            | none => Except.ok ls1
            | some e => Except.error (e, ls1)) ∧
        ls1.app.dom = base ++ a1 :: rest ∧
        a1.role = a.role ∧
        (parts.any producesThought = false →
          ls1.thoughtAcc = ls.thoughtAcc ∧
          a1.thinkingHidden = a.thinkingHidden) ∧
        (parts.any producesThought = true →
          ls1.thoughtAcc ≠ "" ∧ a1.thinkingHidden = false) ∧
        (parts.any producesText = false → a1.textHTML = a.textHTML) := by
  intro parts
  induction parts with
  | nil =>
    intro ls a hdom
    refine ⟨ls, a, ?_, hdom, rfl, fun _ => ⟨rfl, rfl⟩, ?_, fun _ => rfl⟩
    · cases fault <;> rfl
    · intro hc
      simp [List.any_nil] at hc
  | cons p ps ih =>
    intro ls a hdom
    by_cases hth : truthy p.thought
    · -- thought branch
      obtain ⟨u, hu⟩ := hr (ls.thoughtAcc ++ " " ++ p.thought.getD "")
      have hstep := processPart_thought render base.length ls p u hth hu
      have hdom1 :
          ({ app := { setChatState ls.app ChatState.THINKING with
                dom := modifyAt
                  (fun t => { t with thinkingHTML := u, thinkingHidden := false })
                  base.length ls.app.dom },
              newCode := ls.newCode,
              thoughtAcc := ls.thoughtAcc ++ " " ++ p.thought.getD "" } :
            LoopState).app.dom =
          base ++ ({ a with thinkingHTML := u, thinkingHidden := false }) :: rest := by
        simp [hdom, modifyAt_append]
      obtain ⟨ls2, a2, h1, h2, h3, h4, h5, h6⟩ := ih _ _ hdom1
      refine ⟨ls2, a2, ?_, h2, h3, ?_, ?_, ?_⟩
      · simpa [runStream, hstep] using h1
      · intro hc
        simp [List.any_cons, producesThought, hth] at hc
      · intro _
        cases hps : ps.any producesThought with
        | true => exact h5 hps
        | false =>
          obtain ⟨hacc, hhid⟩ := h4 hps
          refine ⟨?_, ?_⟩
          · rw [hacc]
            exact append_space_ne _ _
          · rw [hhid]
      · intro hc
        have hpt : producesText p = false := by
          simp [producesText, hth]
        rw [List.any_cons, hpt, Bool.false_or] at hc
        exact h6 hc
    · by_cases htx : truthy p.text
      · -- text branch
        obtain ⟨u, hu⟩ := hr (ls.newCode ++ p.text.getD "")
        have hth' : truthy p.thought = false := by simpa using hth
        have hstep := processPart_text render base.length ls p u hth' htx hu
        have hdom1 :
            ({ app := { setChatState ls.app ChatState.EXECUTING with
                  dom := modifyAt (fun t => { t with textHTML := u })
                    base.length ls.app.dom },
                newCode := ls.newCode ++ p.text.getD "",
                thoughtAcc := ls.thoughtAcc } : LoopState).app.dom =
            base ++ ({ a with textHTML := u }) :: rest := by
          simp [hdom, modifyAt_append]
        obtain ⟨ls2, a2, h1, h2, h3, h4, h5, h6⟩ := ih _ _ hdom1
        have hpth : producesThought p = false := by
          simp [producesThought, hth']
        refine ⟨ls2, a2, ?_, h2, h3, ?_, ?_, ?_⟩
        · simpa [runStream, hstep] using h1
        · intro hc
          rw [List.any_cons, hpth, Bool.false_or] at hc
          exact h4 hc
        · intro hc
          rw [List.any_cons, hpth, Bool.false_or] at hc
          exact h5 hc
        · intro hc
          have hpt : producesText p = true := by simp [producesText, hth', htx]
          rw [List.any_cons, hpt] at hc
          simp at hc
      · -- neither branch
        have hth' : truthy p.thought = false := by simpa using hth
        have htx' : truthy p.text = false := by simpa using htx
        have hstep := processPart_skip render base.length ls p hth' htx'
        obtain ⟨ls2, a2, h1, h2, h3, h4, h5, h6⟩ := ih ls a hdom
        have hpth : producesThought p = false := by
          simp [producesThought, hth']
        have hptx : producesText p = false := by
          simp [producesText, htx']
        refine ⟨ls2, a2, ?_, h2, h3, ?_, ?_, ?_⟩
        · simpa [runStream, hstep] using h1
        · intro hc
          rw [List.any_cons, hpth, Bool.false_or] at hc
          exact h4 hc
        · intro hc
          rw [List.any_cons, hpth, Bool.false_or] at hc
          exact h5 hc
        · intro hc
          rw [List.any_cons, hptx, Bool.false_or] at hc
          exact h6 hc

/-- Effect of the post-stream cleanup on the assistant turn at index
`base.length`: the thinking container is hidden exactly when the thought
accumulator is empty, and a text element still holding the placeholder is
cleared. -/
theorem streamCleanup_spec (acc : String) (app : AppState)
    (base rest : List TurnContent) (a : TurnContent)
    (hdom : app.dom = base ++ a :: rest) :
    ∃ a1,
      (streamCleanup base.length acc app).dom = base ++ a1 :: rest ∧
      (streamCleanup base.length acc app).messages = app.messages ∧
      a1.role = a.role ∧
      (acc = "" → a1.thinkingHidden = true) ∧
      (acc ≠ "" → a1.thinkingHidden = a.thinkingHidden) ∧
      (a.textHTML = "..." → a1.textHTML = "") := by
  by_cases hacc : acc = ""
  · by_cases htrim : jsTrim a.textHTML = "..." ∨ jsTrim a.textHTML = ""
    · refine ⟨{ a with thinkingHidden := true, textHTML := "" },
        ?_, ?_, rfl, fun _ => rfl, fun hn => absurd hacc hn, fun _ => rfl⟩ <;>
        simp [streamCleanup, hacc, hdom, modifyAt_append, domAt_append_mid, htrim]
    · refine ⟨{ a with thinkingHidden := true },
        ?_, ?_, rfl, fun _ => rfl, fun hn => absurd hacc hn,
        fun hx => absurd (Or.inl (by rw [hx]; rfl)) htrim⟩ <;>
        simp [streamCleanup, hacc, hdom, modifyAt_append, domAt_append_mid, htrim]
  · by_cases htrim : jsTrim a.textHTML = "..." ∨ jsTrim a.textHTML = ""
    · refine ⟨{ a with textHTML := "" },
        ?_, ?_, rfl, fun hx => absurd hx hacc, fun _ => rfl, fun _ => rfl⟩ <;>
        simp [streamCleanup, hacc, hdom, modifyAt_append, domAt_append_mid, htrim]
    · refine ⟨a,
        ?_, ?_, rfl, fun hx => absurd hx hacc, fun _ => rfl,
        fun hx => absurd (Or.inl (by rw [hx]; rfl)) htrim⟩ <;>
        simp [streamCleanup, hacc, hdom, modifyAt_append, domAt_append_mid, htrim]

theorem modifyAt_append2 {α : Type} (f : α → α) (base : List α) (a b : α)
    (rest : List α) :
    modifyAt f (base.length + 1) (base ++ a :: b :: rest) =
      base ++ a :: f b :: rest := by
  induction base with
  | nil => rfl
  | cons c cs ih => simp [modifyAt, ih]

/-- The continuation after a successful stream end: only the cleanup
steps run. -/
theorem handleStreamResult_ok_spec (render : String → Except String String)
    (ls1 : LoopState) (base : List TurnContent) (a1 : TurnContent)
    (hdom1 : ls1.app.dom = base ++ a1 :: []) :
    ∃ a2,
      (handleStreamResult render base.length (Except.ok ls1)).1.dom =
        base ++ a2 :: [] ∧
      (handleStreamResult render base.length (Except.ok ls1)).2 = none ∧
      a2.role = a1.role ∧
      (ls1.thoughtAcc = "" → a2.thinkingHidden = true) ∧
      (ls1.thoughtAcc ≠ "" → a2.thinkingHidden = a1.thinkingHidden) ∧
      (a1.textHTML = "..." → a2.textHTML = "") := by
  obtain ⟨a2, hc1, hc2, hc3, hc4, hc5, hc6⟩ :=
    streamCleanup_spec ls1.thoughtAcc ls1.app base [] a1 hdom1
  exact ⟨a2, hc1, rfl, hc3, hc4, hc5, hc6⟩

/-- The continuation after a caught fault, when rendering the error
message succeeds: the error turn is appended and filled, then the cleanup
steps run on the assistant turn. -/
theorem handleStreamResult_error_spec (render : String → Except String String)
    (e : String) (ls1 : LoopState) (base : List TurnContent)
    (a1 : TurnContent) (u : String)
    (hdom1 : ls1.app.dom = base ++ a1 :: [])
    (hu : render ("Error: " ++ e) = Except.ok u) :
    ∃ a2,
      (handleStreamResult render base.length (Except.error (e, ls1))).1.dom =
        base ++ a2 :: [{ role := "error", thinkingHidden := true,
                         thinkingHTML := "", textHTML := u }] ∧
      (handleStreamResult render base.length (Except.error (e, ls1))).2 = none ∧
      a2.role = a1.role ∧
      (ls1.thoughtAcc = "" → a2.thinkingHidden = true) ∧
      (ls1.thoughtAcc ≠ "" → a2.thinkingHidden = a1.thinkingHidden) ∧
      (a1.textHTML = "..." → a2.textHTML = "") := by
  have hje : jsTrim "error" = "error" := rfl
  have hs5 : ({ (addMessage ls1.app "error" "").1 with
      dom := modifyAt (fun t => { t with textHTML := u })
               (addMessage ls1.app "error" "").2
               (addMessage ls1.app "error" "").1.dom } : AppState).dom =
      base ++ a1 :: [{ role := "error", thinkingHidden := true,
                       thinkingHTML := "", textHTML := u }] := by
    simp [addMessage, hdom1, hje, modifyAt_append2]
  obtain ⟨a2, hc1, hc2, hc3, hc4, hc5, hc6⟩ :=
    streamCleanup_spec ls1.thoughtAcc _ base _ a1 hs5
  refine ⟨a2, ?_, ?_, hc3, hc4, hc5, hc6⟩
  · simp only [handleStreamResult, hu]
    exact hc1
  · simp only [handleStreamResult, hu]

/-- Master characterisation of one send operation, for a rendering
function that never faults: the handler appends the assistant turn (and,
on a stream fault, one error turn rendered from `"Error: " + message`),
propagates no exception, ends with the thinking container visible exactly
when some fragment reached the thought branch, and clears the placeholder
when no fragment reached the text branch. -/
theorem sendMessageHandler_spec (render : String → Except String String)
    (parts : List StreamPart) (fault : Option String) (s : AppState)
    (input : String)
    (hr : ∀ t : String, ∃ u, render t = Except.ok u) :
    ∃ a rest,
      (sendMessageHandler render parts fault s input).1.dom =
        s.dom ++ a :: rest ∧
      a.role = "assistant" ∧
      (sendMessageHandler render parts fault s input).2 = none ∧
      (a.thinkingHidden = false ↔ parts.any producesThought = true) ∧
      (parts.any producesText = false → a.textHTML = "") ∧
      (match fault with
        | none => rest = []
        | some e =>
          ∃ u, render ("Error: " ++ e) = Except.ok u ∧
            rest = [{ role := "error", thinkingHidden := true,
                      thinkingHTML := "", textHTML := u }]) := by
  obtain ⟨ls1, a1, hrun, hdom1, hrole1, hthF, hthT, htxF⟩ :=
    runStream_spec render hr fault s.dom [] parts
      { app := (startAssistantTurn s).1, newCode := "", thoughtAcc := "" }
      { role := "assistant", thinkingHidden := true,
        thinkingHTML := "", textHTML := "..." }
      (startAssistantTurn_fst_dom s)
  have hhid :
      a1.thinkingHidden = false ↔ parts.any producesThought = true := by
    cases hany : parts.any producesThought with
    | true =>
      obtain ⟨_, h2⟩ := hthT hany
      simp [h2]
    | false =>
      obtain ⟨_, h2⟩ := hthF hany
      simp [h2]
  have haccOf :
      parts.any producesThought = false → ls1.thoughtAcc = "" := by
    intro hany
    exact (hthF hany).1
  have haccNe :
      parts.any producesThought = true → ls1.thoughtAcc ≠ "" := by
    intro hany
    exact (hthT hany).1
  cases fault with
  | none =>
    obtain ⟨a2, hc1, hc2, hc3, hc4, hc5, hc6⟩ :=
      handleStreamResult_ok_spec render ls1 s.dom a1 hdom1
    refine ⟨a2, [], ?_, ?_, ?_, ?_, ?_, rfl⟩
    · simp only [sendMessageHandler, startAssistantTurn_snd, hrun]
      exact hc1
    · rw [hc3, hrole1]
    · simp only [sendMessageHandler, startAssistantTurn_snd, hrun]
      exact hc2
    · cases hany : parts.any producesThought with
      | true =>
        have h1 := hc5 (haccNe hany)
        rw [h1]
        rw [hhid]
        simp [hany]
      | false =>
        have h1 := hc4 (haccOf hany)
        simp [h1, hany]
    · intro hnt
      exact hc6 (htxF hnt)
  | some e =>
    obtain ⟨u, hu⟩ := hr ("Error: " ++ e)
    obtain ⟨a2, hc1, hc2, hc3, hc4, hc5, hc6⟩ :=
      handleStreamResult_error_spec render e ls1 s.dom a1 u hdom1 hu
    refine ⟨a2,
      [{ role := "error", thinkingHidden := true,
         thinkingHTML := "", textHTML := u }], ?_, ?_, ?_, ?_, ?_, ?_⟩
    · simp only [sendMessageHandler, startAssistantTurn_snd, hrun]
      exact hc1
    · rw [hc3, hrole1]
    · simp only [sendMessageHandler, startAssistantTurn_snd, hrun]
      exact hc2
    · cases hany : parts.any producesThought with
      | true =>
        have h1 := hc5 (haccNe hany)
        rw [h1]
        rw [hhid]
        simp [hany]
      | false =>
        have h1 := hc4 (haccOf hany)
        simp [h1, hany]
    · intro hnt
      exact hc6 (htxF hnt)
    · exact ⟨u, hu, rfl⟩

theorem startUserTurn_messages (s : AppState) (h : String) :
    (startUserTurn s h).messages = s.messages ++ [s.dom.length] := by
  simp [startUserTurn, addMessage]

theorem sendMessageAction_messages (render : String → Except String String)
    (parts : List StreamPart) (fault : Option String) (nextPrompt : String)
    (s : AppState) :
    ∃ l : List Nat,
      (sendMessageAction render parts fault nextPrompt s).1.messages =
        s.messages ++ l := by
  by_cases hguard :
      (s.chatState != ChatState.IDLE || jsTrim s.inputMessage == "") = true
  · exact ⟨[], by simp [sendMessageAction, hguard]⟩
  · cases hre : render (jsTrim s.inputMessage) with
    | error e =>
      refine ⟨[s.dom.length], ?_⟩
      simp [sendMessageAction, hguard, hre, addMessage]
    | ok h =>
      obtain ⟨l, hl⟩ := sendMessageHandler_messages render parts fault
        (startUserTurn s h) (jsTrim s.inputMessage)
      rw [startUserTurn_messages] at hl
      refine ⟨s.dom.length :: l, ?_⟩
      cases hex : (sendMessageHandler render parts fault
          (startUserTurn s h) (jsTrim s.inputMessage)).2 with
      | none => simp [sendMessageAction, hguard, hre, hex, hl]
      | some e2 => simp [sendMessageAction, hguard, hre, hex, hl]

theorem truthy_iff_exists (x : Option String) :
    truthy x = true ↔ ∃ s, x = some s ∧ s ≠ "" := by
  cases x <;> simp [truthy]

theorem truthy_eq_false_iff (x : Option String) :
    truthy x = false ↔ (x = none ∨ x = some "") := by
  cases x with
  | none => simp [truthy]
  | some s =>
    simp only [truthy, Bool.not_eq_true']
    constructor
    · intro hb
      exact Or.inr (by simpa using hb)
    · intro hb
      rcases hb with hb | hb
      · cases hb
      · simp [Option.some.injEq] at hb
        simp [hb]

theorem mapQueryAction_truthy_cases (params : MapParams) :
    ((∃ q, mapQueryAction params = some (MapAction.viewLocation q)) ↔
      truthy params.location = true) ∧
    ((∃ o d, mapQueryAction params = some (MapAction.directions o d)) ↔
      (truthy params.location = false ∧ truthy params.origin = true ∧
        truthy params.destination = true)) ∧
    (mapQueryAction params = none ↔
      (truthy params.location = false ∧
        (truthy params.origin = false ∨ truthy params.destination = false))) := by
  by_cases h1 : truthy params.location <;>
    by_cases h2 : truthy params.origin <;>
      by_cases h3 : truthy params.destination <;>
        simp [mapQueryAction, h1, h2, h3]

theorem clearMapElements_intentInv (s : AppState) :
    intentInv (clearMapElements s) := by
  exact ⟨Or.inl rfl, by simp [clearMapElements], by simp [clearMapElements]⟩

theorem handleViewLocation_intentInv (s : AppState) (q status : String)
    (results : List GeoLoc) (hinv : intentInv s) :
    intentInv (handleViewLocation s q status results) := by
  unfold handleViewLocation
  split
  · exact hinv
  · split
    · dsimp only
      split
      · refine ⟨Or.inr ⟨?_, ?_, ?_⟩, ?_, ?_⟩ <;> simp [clearMapElements]
      · exact clearMapElements_intentInv s
    · exact clearMapElements_intentInv s

theorem handleDirections_intentInv (s : AppState) (o d status : String)
    (routes : List RouteData) (hinv : intentInv s) :
    intentInv (handleDirections s o d status routes) := by
  unfold handleDirections
  split
  · exact hinv
  · split
    · dsimp only
      split
      · refine ⟨Or.inl rfl, ?_, ?_⟩ <;>
          simp [clearMapElements]
      · exact clearMapElements_intentInv s
    · exact clearMapElements_intentInv s

/-! ## Claim theorems -/

/-- C1: for every invocation of the chat send operation, on every exit
path — successful stream completion, empty stream, caught streaming or
model fault, or an exception thrown while rendering a fragment (modelled
by an arbitrary fallible `render` and an arbitrary stream fault) — the
chat state is IDLE when the operation returns. -/
theorem chatState_idle_on_every_exit (render : String → Except String String)
    (parts : List StreamPart) (fault : Option String) (s : AppState)
    (input : String) :
    (sendMessageHandler render parts fault s input).1.chatState =
      ChatState.IDLE := rfl

/-- C3: for every fragment sequence consumed by one send operation
(empty, all-thought or mixed, with or without a stream fault, with a
rendering function that never faults), at the end of the operation the
thinking pane of the assistant turn is visible (not hidden) exactly when
at least one fragment reached the thought branch. -/
theorem thinking_pane_visible_iff_thought
    (render : String → Except String String) (parts : List StreamPart)
    (fault : Option String) (s : AppState) (input : String)
    (hr : ∀ t : String, ∃ u, render t = Except.ok u) :
    ∃ a rest,
      (sendMessageHandler render parts fault s input).1.dom =
        s.dom ++ a :: rest ∧
      a.role = "assistant" ∧
      (a.thinkingHidden = false ↔ parts.any producesThought = true) := by
  obtain ⟨a, rest, h1, h2, _, h4, _, _⟩ :=
    sendMessageHandler_spec render parts fault s input hr
  exact ⟨a, rest, h1, h2, h4⟩

/-- C3 witness: a one-thought stream at concrete inputs. -/
theorem thinking_pane_visible_iff_thought_witness :
    ∃ a rest,
      (sendMessageHandler (fun t => Except.ok t)
          [{ thought := some "hm" }] none {} "q").1.dom =
        ({} : AppState).dom ++ a :: rest ∧
      a.role = "assistant" ∧
      (a.thinkingHidden = false ↔
        ([{ thought := some "hm" }] : List StreamPart).any producesThought = true) :=
  thinking_pane_visible_iff_thought (fun t => Except.ok t)
    [{ thought := some "hm" }] none {} "q" (fun t => ⟨t, rfl⟩)

/-- C4: every stream fault of a send operation is caught at the handler
boundary: no exception propagates, exactly one error-role turn is
appended (after the assistant turn), its text is the rendering of
`"Error: " + message`, and the state is IDLE again, so the next send is
admitted. -/
theorem stream_fault_appends_error_turn
    (render : String → Except String String) (parts : List StreamPart)
    (e : String) (s : AppState) (input : String)
    (hr : ∀ t : String, ∃ u, render t = Except.ok u) :
    ∃ a u,
      render ("Error: " ++ e) = Except.ok u ∧
      (sendMessageHandler render parts (some e) s input).1.dom =
        s.dom ++ [a, { role := "error", thinkingHidden := true,
                       thinkingHTML := "", textHTML := u }] ∧
      a.role = "assistant" ∧
      (sendMessageHandler render parts (some e) s input).2 = none ∧
      (sendMessageHandler render parts (some e) s input).1.chatState =
        ChatState.IDLE := by
  obtain ⟨a, rest, h1, h2, h3, _, _, h6⟩ :=
    sendMessageHandler_spec render parts (some e) s input hr
  obtain ⟨u, hu, hrest⟩ := h6
  subst hrest
  exact ⟨a, u, hu, h1, h2, h3, rfl⟩

/-- C4 witness: a mid-stream fault "boom" at concrete inputs. -/
theorem stream_fault_appends_error_turn_witness :
    ∃ a u,
      okRender ("Error: " ++ "boom") = Except.ok u ∧
      (sendMessageHandler okRender [] (some "boom") {} "q").1.dom =
        ({} : AppState).dom ++
          [a, { role := "error", thinkingHidden := true,
                thinkingHTML := "", textHTML := u }] ∧
      a.role = "assistant" ∧
      (sendMessageHandler okRender [] (some "boom") {} "q").2 = none ∧
      (sendMessageHandler okRender [] (some "boom") {} "q").1.chatState =
        ChatState.IDLE :=
  stream_fault_appends_error_turn okRender [] "boom" {} "q"
    (fun t => ⟨t, rfl⟩)

/-- C5: a new send is never initiated while the chat state is not IDLE:
`sendMessageAction` returns immediately with the state unchanged, no turn
appended, the input not cleared, and without calling
`sendMessageHandler`. -/
theorem no_send_when_not_idle (render : String → Except String String)
    (parts : List StreamPart) (fault : Option String) (nextPrompt : String)
    (s : AppState) (h : s.chatState ≠ ChatState.IDLE) :
    sendMessageAction render parts fault nextPrompt s = (s, false, none) := by
  have hb : (s.chatState != ChatState.IDLE || jsTrim s.inputMessage == "") =
      true := by
    simp [h]
  simp [sendMessageAction, hb]

/-- C5 witness: a send attempted while GENERATING. -/
theorem no_send_when_not_idle_witness :
    sendMessageAction (fun t => Except.ok t) [] none "next"
        { chatState := ChatState.GENERATING, inputMessage := "hello" } =
      ({ chatState := ChatState.GENERATING, inputMessage := "hello" },
        false, none) :=
  no_send_when_not_idle (fun t => Except.ok t) [] none "next"
    { chatState := ChatState.GENERATING, inputMessage := "hello" }
    (by decide)

/-- C6: the transcript is append-only: `addMessage` appends exactly one
turn at the end of `messages` (and returns its reference), and the send
handler and the send action only ever extend the `messages` list — no
entry is removed, reordered or replaced. -/
theorem transcript_append_only :
    (∀ (s : AppState) (role message : String),
      (addMessage s role message).1.messages =
        s.messages ++ [(addMessage s role message).2]) ∧
    (∀ (render : String → Except String String) (parts : List StreamPart)
        (fault : Option String) (s : AppState) (input : String),
      ∃ l, (sendMessageHandler render parts fault s input).1.messages =
        s.messages ++ l) ∧
    (∀ (render : String → Except String String) (parts : List StreamPart)
        (fault : Option String) (nextPrompt : String) (s : AppState),
      ∃ l, (sendMessageAction render parts fault nextPrompt s).1.messages =
        s.messages ++ l) :=
  ⟨fun _ _ _ => rfl, sendMessageHandler_messages, sendMessageAction_messages⟩

/-- C8: after the fragment sequence of a send is exhausted (stream fault
or not, with a rendering function that never faults): if no fragment
reached the thought branch the thinking pane of the assistant turn is
hidden, and if no fragment reached the text branch the `'...'`
placeholder of the assistant turn is cleared to the empty string. -/
theorem post_stream_cleanup (render : String → Except String String)
    (parts : List StreamPart) (fault : Option String) (s : AppState)
    (input : String)
    (hr : ∀ t : String, ∃ u, render t = Except.ok u) :
    ∃ a rest,
      (sendMessageHandler render parts fault s input).1.dom =
        s.dom ++ a :: rest ∧
      a.role = "assistant" ∧
      (parts.any producesThought = false → a.thinkingHidden = true) ∧
      (parts.any producesText = false → a.textHTML = "") := by
  obtain ⟨a, rest, h1, h2, _, h4, h5, _⟩ :=
    sendMessageHandler_spec render parts fault s input hr
  refine ⟨a, rest, h1, h2, ?_, h5⟩
  intro hnp
  cases hhid : a.thinkingHidden with
  | true => rfl
  | false =>
    have hc := h4.mp hhid
    rw [hnp] at hc
    cases hc

/-- C8 witness: the empty stream at concrete inputs. -/
theorem post_stream_cleanup_witness :
    ∃ a rest,
      (sendMessageHandler (fun t => Except.ok t) [] none {} "q").1.dom =
        ({} : AppState).dom ++ a :: rest ∧
      a.role = "assistant" ∧
      (([] : List StreamPart).any producesThought = false →
        a.thinkingHidden = true) ∧
      (([] : List StreamPart).any producesText = false → a.textHTML = "") :=
  post_stream_cleanup (fun t => Except.ok t) [] none {} "q"
    (fun t => ⟨t, rfl⟩)

/-- C2 (dispatcher modelled from the spec, the server source being
outside `src/`): every ToolCallRequest naming a registered tool with all
required arguments present succeeds and fires exactly one map-query
notification whose parameters are the request's arguments (`query` maps
to `location` for the view tool; `origin`/`destination` pass through for
the directions tool). -/
theorem dispatcher_success_notifies_once (req : ToolCallRequest)
    (td : ToolDef)
    (hfound : registeredTools.find? (fun t => t.name == req.name) = some td)
    (hargs : ∀ k ∈ td.requiredParams, (lookupArg req.args k).isSome = true) :
    (handle req).1.success = true ∧
    ∃ p, (handle req).2 = [p] ∧
      (req.name = "view_location_google_maps" →
        p = { location := lookupArg req.args "query",
              origin := none, destination := none }) ∧
      (req.name = "directions_on_google_maps" →
        p = { location := none,
              origin := lookupArg req.args "origin",
              destination := lookupArg req.args "destination" }) := by
  have hmiss : td.requiredParams.find?
      (fun k => (lookupArg req.args k).isNone) = none := by
    rw [List.find?_eq_none]
    intro k hk
    have h := hargs k hk
    cases hopt : lookupArg req.args k with
    | none => rw [hopt] at h; simp at h
    | some v => simp [hopt]
  by_cases hname : req.name = "view_location_google_maps"
  · have hb : (req.name == "view_location_google_maps") = true := by
      simp [hname]
    refine ⟨by simp [handle, hfound, hmiss],
      ⟨{ location := lookupArg req.args "query",
         origin := none, destination := none },
        by simp [handle, hfound, hmiss, hb], fun _ => rfl, fun hd => ?_⟩⟩
    rw [hname] at hd
    exact absurd hd (by decide)
  · have hb : (req.name == "view_location_google_maps") = false := by
      simp [hname]
    refine ⟨by simp [handle, hfound, hmiss],
      ⟨{ location := none, origin := lookupArg req.args "origin",
         destination := lookupArg req.args "destination" },
        by simp [handle, hfound, hmiss, hb],
        fun hv => absurd hv hname, fun _ => rfl⟩⟩

/-- C2 witness: a valid view-location request. -/
theorem dispatcher_success_notifies_once_witness :
    (handle { callId := 7, name := "view_location_google_maps",
              args := [("query", "San Francisco")] }).1.success = true ∧
    ∃ p,
      (handle { callId := 7, name := "view_location_google_maps",
                args := [("query", "San Francisco")] }).2 = [p] ∧
      (({ callId := 7, name := "view_location_google_maps",
          args := [("query", "San Francisco")] } : ToolCallRequest).name =
          "view_location_google_maps" →
        p = { location := lookupArg [("query", "San Francisco")] "query",
              origin := none, destination := none }) ∧
      (({ callId := 7, name := "view_location_google_maps",
          args := [("query", "San Francisco")] } : ToolCallRequest).name =
          "directions_on_google_maps" →
        p = { location := none,
              origin := lookupArg [("query", "San Francisco")] "origin",
              destination :=
                lookupArg [("query", "San Francisco")] "destination" }) :=
  dispatcher_success_notifies_once
    { callId := 7, name := "view_location_google_maps",
      args := [("query", "San Francisco")] }
    { name := "view_location_google_maps", requiredParams := ["query"] }
    (by decide) (by decide)

/-- C7 counterexample: a view-location action whose lookup reports
`ZERO_RESULTS` does change the map state when an element was displayed
before — the previously displayed marker is removed (cleared before the
lookup), so "the map state is left unchanged" is false as stated. -/
theorem map_lookup_failure_claim_false :
    handleViewLocation
        { mapInitialized := true, geocoderPresent := true, mapPresent := true,
          marker := some { lat := 1, lng := 2, label := "Old" } }
        "Paris" "ZERO_RESULTS" [] ≠
      { mapInitialized := true, geocoderPresent := true, mapPresent := true,
        marker := some { lat := 1, lng := 2, label := "Old" } } ∧
    (handleViewLocation
        { mapInitialized := true, geocoderPresent := true, mapPresent := true,
          marker := some { lat := 1, lng := 2, label := "Old" } }
        "Paris" "ZERO_RESULTS" []).marker = none := by
  decide

/-- C7 amended: for every view-location or directions action whose
external lookup reports a not-found / non-OK status, no camera move
happens, no marker or polyline is added, and no transcript turn (in
particular no error turn) is produced; the state is either untouched (map
not initialised) or exactly the prior state with its displayed map
elements cleared. -/
theorem map_lookup_failure_amended :
    (∀ (s : AppState) (q status : String) (results : List GeoLoc),
      status ≠ "OK" ∨ results = [] →
      (handleViewLocation s q status results).camera = s.camera ∧
      (handleViewLocation s q status results).messages = s.messages ∧
      (handleViewLocation s q status results).dom = s.dom ∧
      (handleViewLocation s q status results = s ∨
        handleViewLocation s q status results = clearMapElements s)) ∧
    (∀ (s : AppState) (o d status : String) (routes : List RouteData),
      status ≠ "OK" ∨ routes = [] →
      (handleDirections s o d status routes).camera = s.camera ∧
      (handleDirections s o d status routes).messages = s.messages ∧
      (handleDirections s o d status routes).dom = s.dom ∧
      (handleDirections s o d status routes = s ∨
        handleDirections s o d status routes = clearMapElements s)) := by
  constructor
  · intro s q status results hfail
    unfold handleViewLocation
    split
    · exact ⟨rfl, rfl, rfl, Or.inl rfl⟩
    · dsimp only
      cases results with
      | nil => exact ⟨rfl, rfl, rfl, Or.inr rfl⟩
      | cons r rs =>
        have hst : status ≠ "OK" := by
          rcases hfail with h | h
          · exact h
          · simp at h
        have hb : (status == "OK" && (clearMapElements s).mapPresent) =
            false := by
          simp [hst]
        simp only [hb, Bool.false_eq_true, if_false]
        exact ⟨rfl, rfl, rfl, Or.inr trivial⟩
  · intro s o d status routes hfail
    unfold handleDirections
    split
    · exact ⟨rfl, rfl, rfl, Or.inl rfl⟩
    · dsimp only
      cases routes with
      | nil => exact ⟨rfl, rfl, rfl, Or.inr rfl⟩
      | cons r rs =>
        have hst : status ≠ "OK" := by
          rcases hfail with h | h
          · exact h
          · simp at h
        have hb : (status == "OK") = false := by
          simp [hst]
        simp only [hb, Bool.false_eq_true, if_false]
        exact ⟨rfl, rfl, rfl, Or.inr trivial⟩

/-- C7 amended witness: a failed view lookup on a state with a displayed
marker. -/
theorem map_lookup_failure_amended_witness :
    (handleViewLocation
        { mapInitialized := true, geocoderPresent := true,
          marker := some { lat := 3, lng := 4, label := "Old" } }
        "X" "ZERO_RESULTS" []).camera =
      ({ mapInitialized := true, geocoderPresent := true,
         marker := some { lat := 3, lng := 4, label := "Old" } } :
          AppState).camera ∧
    (handleViewLocation
        { mapInitialized := true, geocoderPresent := true,
          marker := some { lat := 3, lng := 4, label := "Old" } }
        "X" "ZERO_RESULTS" []).messages =
      ({ mapInitialized := true, geocoderPresent := true,
         marker := some { lat := 3, lng := 4, label := "Old" } } :
          AppState).messages ∧
    (handleViewLocation
        { mapInitialized := true, geocoderPresent := true,
          marker := some { lat := 3, lng := 4, label := "Old" } }
        "X" "ZERO_RESULTS" []).dom =
      ({ mapInitialized := true, geocoderPresent := true,
         marker := some { lat := 3, lng := 4, label := "Old" } } :
          AppState).dom ∧
    (handleViewLocation
        { mapInitialized := true, geocoderPresent := true,
          marker := some { lat := 3, lng := 4, label := "Old" } }
        "X" "ZERO_RESULTS" [] =
        { mapInitialized := true, geocoderPresent := true,
          marker := some { lat := 3, lng := 4, label := "Old" } } ∨
      handleViewLocation
        { mapInitialized := true, geocoderPresent := true,
          marker := some { lat := 3, lng := 4, label := "Old" } }
        "X" "ZERO_RESULTS" [] =
        clearMapElements
          { mapInitialized := true, geocoderPresent := true,
            marker := some { lat := 3, lng := 4, label := "Old" } }) :=
  map_lookup_failure_amended.1
    { mapInitialized := true, geocoderPresent := true,
      marker := some { lat := 3, lng := 4, label := "Old" } }
    "X" "ZERO_RESULTS" [] (Or.inr rfl)

/-- C9 counterexample: with `location` present but empty (and truthy
origin/destination), `handleMapQuery` performs the directions action, not
the view-location action — so "view-location is performed if and only if
`params.location` is present" is false as stated. -/
theorem mapQuery_dispatch_claim_false :
    ({ location := some "", origin := some "Tokyo",
       destination := some "Kyoto" } : MapParams).location.isSome = true ∧
    mapQueryAction { location := some "", origin := some "Tokyo",
                     destination := some "Kyoto" } =
      some (MapAction.directions "Tokyo" "Kyoto") := by
  decide

/-- C9 amended: the view-location action is selected exactly when
`location` is present and nonempty; the directions action exactly when
`location` is absent or empty and both `origin` and `destination` are
present and nonempty; otherwise no action is performed. -/
theorem mapQuery_dispatch_amended (params : MapParams) :
    ((∃ q, mapQueryAction params = some (MapAction.viewLocation q)) ↔
      (∃ q, params.location = some q ∧ q ≠ "")) ∧
    ((∃ o d, mapQueryAction params = some (MapAction.directions o d)) ↔
      ((params.location = none ∨ params.location = some "") ∧
        (∃ o, params.origin = some o ∧ o ≠ "") ∧
        (∃ d, params.destination = some d ∧ d ≠ ""))) ∧
    (mapQueryAction params = none ↔
      ((params.location = none ∨ params.location = some "") ∧
        ((params.origin = none ∨ params.origin = some "") ∨
          (params.destination = none ∨ params.destination = some "")))) := by
  obtain ⟨h1, h2, h3⟩ := mapQueryAction_truthy_cases params
  exact ⟨h1.trans (truthy_iff_exists _),
    h2.trans (and_congr (truthy_eq_false_iff _)
      (and_congr (truthy_iff_exists _) (truthy_iff_exists _))),
    h3.trans (and_congr (truthy_eq_false_iff _)
      (or_congr (truthy_eq_false_iff _) (truthy_eq_false_iff _)))⟩

/-- C9 amended witness: empty location with truthy origin/destination
selects directions. -/
theorem mapQuery_dispatch_amended_witness :
    ∃ o d, mapQueryAction { location := some "", origin := some "Tokyo",
                            destination := some "Kyoto" } =
      some (MapAction.directions o d) :=
  (mapQuery_dispatch_amended
    { location := some "", origin := some "Tokyo",
      destination := some "Kyoto" }).2.1.mpr
    ⟨Or.inr rfl, ⟨"Tokyo", rfl, by decide⟩, ⟨"Kyoto", rfl, by decide⟩⟩

/-- C10: `_clearMapElements` resets all four map element fields, and —
since every map action clears before adding — `handleMapQuery` preserves
the invariant that the map displays the elements of at most one resolved
intent: a location marker excludes route elements, and the route
polyline and its endpoint-marker pair are present together or not at
all. -/
theorem single_intent_invariant :
    (∀ s : AppState,
      (clearMapElements s).marker = none ∧
      (clearMapElements s).routePolyline = none ∧
      (clearMapElements s).originMarker = none ∧
      (clearMapElements s).destinationMarker = none) ∧
    (∀ (s : AppState) (params : MapParams) (gstatus : String)
        (gresults : List GeoLoc) (dstatus : String)
        (droutes : List RouteData),
      intentInv s →
      intentInv (handleMapQuery s params gstatus gresults dstatus droutes)) := by
  constructor
  · intro s
    exact ⟨rfl, rfl, rfl, rfl⟩
  · intro s params gs gr ds dr hinv
    unfold handleMapQuery
    cases hact : mapQueryAction params with
    | none => exact hinv
    | some act =>
      cases act with
      | viewLocation q => exact handleViewLocation_intentInv s q gs gr hinv
      | directions o d => exact handleDirections_intentInv s o d ds dr hinv

/-- C10 witness: a successful view-location action from an initialised
empty map. -/
theorem single_intent_invariant_witness :
    intentInv (handleMapQuery
      { mapInitialized := true, geocoderPresent := true, mapPresent := true }
      { location := some "SF" } "OK" [{ lat := 1, lng := 2 }] "OK" []) :=
  single_intent_invariant.2
    { mapInitialized := true, geocoderPresent := true, mapPresent := true }
    { location := some "SF" } "OK" [{ lat := 1, lng := 2 }] "OK" []
    (by decide)
